import Mathlib

/-!
Verification development for the multipass LXD backend state machine.

The repository ships the LXD backend's test suite
(src/tests/lxd/test_lxd_backend.cpp) together with the shared
BaseVirtualMachineFactory (src/src/platform/backends/shared/
base_virtual_machine_factory.cpp).  The LXD implementation files
themselves (lxd_virtual_machine.cpp, lxd_request.cpp,
lxd_virtual_machine_factory.cpp) are not part of the sources, so the
instance state machine, the operation waiter and the network inventory
are modelled here from the specification (spec.md sections 4.2 to 4.4 and
section 6), kept consistent with the behaviour the in-repo tests pin
down.  make_cloud_init_image is embedded directly from the
BaseVirtualMachineFactory source.
-/

namespace Multipass

/-- Believed state of a virtual machine instance, as in
multipass::VirtualMachine::State (spec.md section 4.3). -/
inductive VMState
  | stopped
  | starting
  | running
  | suspending
  | suspended
  | unknown
  deriving DecidableEq, Repr

/-- Log levels used by the logging collaborator. -/
inductive LogLevel
  | error
  | warning
  | info
  | debug
  deriving DecidableEq, Repr

/-- One logged message: a level and the message text. -/
structure LogEntry where
  level : LogLevel
  message : String
  deriving DecidableEq, Repr

/-- Outcome of one remote state query, abstracting the transport: either a
JSON reply carrying the remote status string and whether network (address)
info is present, or a transport-level connection failure with its error
text. -/
inductive RemoteRead
  | ok (status : String) (hasNetworkInfo : Bool)
  | connectionError (msg : String)
  deriving DecidableEq, Repr

/-- Modelled from the spec: the remote-status-string to state mapping of
LXDVirtualMachine (lxd_virtual_machine.cpp is absent from src/).  Per
spec.md section 4.3 and the LXDInstanceStatusTestSuite inputs:
Stopped maps to stopped, Starting to starting, Freezing to suspending,
Frozen to suspended, Running with network info to running; a Running
report without network info is still starting (the instance has booted
but holds no address yet, as exercised by vm_state_partial_running_data);
anything else is unknown. -/
def mapStatus (status : String) (hasNetworkInfo : Bool) : VMState :=
  if status = "Stopped" then .stopped
  else if status = "Starting" then .starting
  else if status = "Freezing" then .suspending
  else if status = "Frozen" then .suspended
  else if status = "Running" then (if hasNetworkInfo then .running else .starting)
  else .unknown

/-- Modelled from the spec: LXDVirtualMachine::current_state (absent from
src/), spec.md section 4.3: a read-only poll that maps the remote status
string through `mapStatus`; an unrecognized string yields unknown plus an
error-level log naming the raw value; a transport connection failure
yields unknown plus a warning-level log carrying the transport error
text, and is not rethrown. -/
def current_state : RemoteRead → VMState × List LogEntry
  | .connectionError msg => (.unknown, [⟨.warning, msg⟩])
  | .ok status hasNetworkInfo =>
    let s := mapStatus status hasNetworkInfo
    if s = .unknown then (s, [⟨.error, "Unexpected LXD state: " ++ status⟩])
    else (s, [])

/-- Result of a start() call: the error surfaced (if any), the
state-changing remote requests issued, the resulting local state, and the
messages logged. -/
structure StartResult where
  error : Option String
  requests : List String
  newLocal : VMState
  logs : List LogEntry
  deriving DecidableEq, Repr

/-- Modelled from the spec: LXDVirtualMachine::start (absent from src/),
spec.md section 4.3: reads the current remote state first; suspending
fails immediately with no state-changing call; suspended issues unfreeze
and logs the resume message at info level; running is a no-op; anything
else (stopped or unknown) issues start and sets the local state to
starting. -/
def start (r : RemoteRead) (localState : VMState) : StartResult :=
  let read := current_state r
  match read.1 with
  | .suspending =>
    { error := some "cannot start the instance while suspending"
      requests := []
      newLocal := localState
      logs := read.2 }
  | .suspended =>
    { error := none
      requests := ["unfreeze"]
      newLocal := .running
      logs := read.2 ++ [⟨.info, "Resuming from a suspended state"⟩] }
  | .running =>
    { error := none
      requests := []
      newLocal := .running
      logs := read.2 }
  | _ =>
    { error := none
      requests := ["start"]
      newLocal := .starting
      logs := read.2 }

/-- Failure kinds surfaced by ensure_vm_is_running.  A start exception is a
distinguished exception type (multipass::StartException) so callers can
tell a shutdown-during-start apart from ordinary runtime errors. -/
inductive EnsureError
  | startException (msg : String)
  deriving DecidableEq, Repr

/-- Result of an ensure_vm_is_running call: the failure raised (if any)
and the resulting believed local state. -/
structure EnsureResult where
  error : Option EnsureError
  finalState : VMState
  deriving DecidableEq, Repr

/-- Modelled from the spec: LXDVirtualMachine::ensure_vm_is_running
(absent from src/), spec.md section 4.3.  The argument list is the
sequence of remote state reads the call makes before its timeout elapses
(the list running out is the timeout).  While the instance is still
coming up the call keeps polling; a remote running report (with network
info) makes the local state running and succeeds; a remote stopped report
is rechecked on the next poll so that a reboot during start (stopped
followed by the instance coming back) is tolerated: only a confirmed
stopped report fails with the distinguished StartException carrying
"Instance shutdown during start" and sets the local state to stopped;
running out of polls (the timeout) returns without error leaving the
local state unchanged. -/
def ensure_vm_is_running (localState : VMState) : List RemoteRead → EnsureResult
  | [] => ⟨none, localState⟩
  | [r] =>
    match (current_state r).1 with
    | .running => ⟨none, .running⟩
    | _ => ⟨none, localState⟩
  | r :: r2 :: rest =>
    match (current_state r).1 with
    | .running => ⟨none, .running⟩
    | .stopped =>
      match (current_state r2).1 with
      | .stopped => ⟨some (.startException "Instance shutdown during start"), .stopped⟩
      | .running => ⟨none, .running⟩
      | _ => ensure_vm_is_running localState rest
    | _ => ensure_vm_is_running localState (r2 :: rest)

/-- Observable effects of destroying an instance state machine: how many
remote stop requests were issued, whether the destructor blocked on the
stop operation's completion, and how many times the external
state-persistence monitor was invoked. -/
structure DtorResult where
  stopRequests : Nat
  waitedOnStop : Bool
  monitorPersistCalls : Nat
  deriving DecidableEq, Repr

/-- Modelled from the spec: the LXDVirtualMachine destructor (absent from
src/), spec.md section 4.3.  Arguments: the remote state observed at
destruction time and whether the operator-maintained maintenance/refresh
marker file (the snap_refresh file) is present.  If the instance is not
already stopped the destructor issues one best-effort stop request and
blocks on its completion, unless the marker is present, in which case it
issues none; the state-persistence monitor is never invoked. -/
def destroy (observed : VMState) (snapRefreshPresent : Bool) : DtorResult :=
  if observed = .stopped then ⟨0, false, 0⟩
  else if snapRefreshPresent then ⟨0, false, 0⟩
  else ⟨1, true, 0⟩

/-- Fields of the operation-wait response envelope inspected by the
operation waiter: top-level error code and error string, top-level status
code and status string, and the nested metadata status code and err
string (spec.md section 3). -/
structure WaitReply where
  error_code : Int
  error : String
  status_code : Int
  status : String
  metadata_status_code : Int
  metadata_err : String
  deriving DecidableEq, Repr

/-- Modelled from the spec: LXD operation status codes at or above 400
(Failure, Cancelled) denote failure. -/
def failureStatus (code : Int) : Bool := 400 ≤ code

/-- Modelled from the spec: the failure analysis of mp::lxd_wait
(lxd_request.cpp is absent from src/), spec.md section 4.2: three failure
conditions checked in order, each producing its distinct diagnostic,
which is surfaced and also logged at error level; when none holds the
wait succeeds. -/
def lxd_wait (r : WaitReply) : Option String × List LogEntry :=
  if r.error_code ≠ 0 then
    let msg := "Error waiting on operation: (" ++ toString r.error_code ++ ") " ++ r.error
    (some msg, [⟨.error, msg⟩])
  else if failureStatus r.status_code then
    let msg := "Failure waiting on operation: (" ++ toString r.status_code ++ ") " ++ r.status
    (some msg, [⟨.error, msg⟩])
  else if failureStatus r.metadata_status_code then
    let msg := "Operation completed with error: (" ++ toString r.metadata_status_code ++ ") "
        ++ r.metadata_err
    (some msg, [⟨.error, msg⟩])
  else (none, [])

/-- Values a network-entry field can hold, as far as the network
inventory inspects them: a JSON string, a JSON number, a JSON boolean,
JSON null, or any nested array/object (which list_networks never looks
inside). -/
inductive JVal
  | str (s : String)
  | num (n : Int)
  | jbool (b : Bool)
  | null
  | compound
  deriving DecidableEq, Repr

/-- One entry of the network-listing metadata array: either a JSON object
given by its fields, or a non-object value (which is skipped). -/
inductive JEntry
  | obj (fields : List (String × JVal))
  | prim (v : JVal)
  deriving DecidableEq, Repr

/-- Look up the first field with the given key in a JSON object. -/
def getField (fields : List (String × JVal)) (key : String) : Option JVal :=
  (fields.find? (fun p => p.1 == key)).map Prod.snd

/-- Modelled from the spec: the per-entry filter of the network inventory
(lxd_virtual_machine_factory.cpp is absent from src/), spec.md section
4.4: skip entries that are not objects, entries missing a name or type
field, entries whose name is empty or non-string, entries whose type is
non-string, and entries whose type is not bridge; keep the rest, by
name. -/
def keepBridge : JEntry → Option String
  | .prim _ => none
  | .obj fields =>
    match getField fields "name", getField fields "type" with
    | some (.str n), some (.str t) =>
      if n = "" then none
      else if t = "bridge" then some n else none
    | _, _ => none

/-- Modelled from the spec: list_networks over a well-formed
network-listing reply (spec.md section 4.4), reduced to the bridge names
reported: each metadata entry goes through the keepBridge filter. -/
def list_networks (metadata : List JEntry) : List String :=
  metadata.filterMap keepBridge

/-- Stated from the spec sentence of claim C7: an entry is a well-formed
bridge with name n when it is an object whose name field is the non-empty
string n and whose type field is the string "bridge".  This is the
claim-side characterization to be compared with keepBridge. -/
def isWellFormedBridge (e : JEntry) (n : String) : Prop :=
  ∃ fields, e = .obj fields ∧ getField fields "name" = some (.str n) ∧ n ≠ "" ∧
    getField fields "type" = some (.str "bridge")

/-- The slice of a VirtualMachineDescription that determines the
instance-creation request body (spec.md section 3): CPU count, memory in
bytes, disk in bytes, instance name, and primary MAC address. -/
structure VMDescription where
  num_cores : Nat
  mem_size_bytes : Nat
  disk_bytes : Nat
  vm_name : String
  mac_addr : String
  deriving DecidableEq, Repr

/-- Modelled from the spec: the config section of the creation request
body POSTed to the hypervisor (spec.md sections 4.3 and 8): CPU and
memory limits rendered as decimal strings. -/
def creationConfig (d : VMDescription) : List (String × String) :=
  [("limits.cpu", toString d.num_cores),
   ("limits.memory", toString d.mem_size_bytes),
   ("security.secureboot", "false")]

/-- Modelled from the spec: the root disk device of the creation request
body, sized from the instance description. -/
def rootDevice (d : VMDescription) : List (String × String) :=
  [("path", "/"),
   ("pool", "default"),
   ("size", toString d.disk_bytes),
   ("type", "disk")]

/-- Modelled from the spec: the eth0 NIC device of the creation request
body, bridged onto the given parent bridge with the description's MAC
address. -/
def eth0Device (d : VMDescription) (bridge : String) : List (String × String) :=
  [("hwaddr", d.mac_addr),
   ("name", "eth0"),
   ("nictype", "bridged"),
   ("parent", bridge),
   ("type", "nic")]

/-- Creation request body: the config section plus the named devices. -/
structure CreationRequest where
  config : List (String × String)
  devices : List (String × List (String × String))
  name : String
  deriving DecidableEq, Repr

/-- Modelled from the spec: the full creation request body assembled by
the instance state machine when the remote instance does not exist yet
(spec.md sections 4.3 and 8). -/
def creationRequest (d : VMDescription) (bridge : String) : CreationRequest :=
  { config := creationConfig d
    devices :=
      [("config", [("source", "cloud-init:config"), ("type", "disk")]),
       ("eth0", eth0Device d bridge),
       ("root", rootDevice d)]
    name := d.vm_name }

/-- A YAML configuration document: whether it is the null node, and its
serialized text. -/
structure YamlNode where
  isNullNode : Bool
  text : String
  deriving DecidableEq, Repr

/-- Content of a generated cloud-init ISO image: the files added to it,
as (file name, file contents) pairs, in insertion order. -/
abbrev CloudInitIso := List (String × String)

/-- File system contents relevant to make_cloud_init_image: the image
files present, as (path, image contents) pairs. -/
abbrev FileSystem := List (String × CloudInitIso)

/-- QFile::exists on the modelled file system. -/
def fileExists (fs : FileSystem) (path : String) : Bool :=
  fs.any (fun p => p.1 == path)

/-- multipass::utils::emit_cloud_config: serializes a YAML document under
the cloud-config header. -/
def emit_cloud_config (n : YamlNode) : String :=
  "#cloud-config\n" ++ n.text ++ "\n"

/-- BaseVirtualMachineFactory::make_cloud_init_image, embedded from
src/src/platform/backends/shared/base_virtual_machine_factory.cpp lines
28 to 48.  The instance name parameter is accepted and unused, as in the
source.  If the image file already exists at instance_dir slash
cloud-init-config.iso its path is returned with no write; otherwise the
meta-data, vendor-data and user-data files (and network-config when the
network document is not null) are emitted into a fresh ISO which is
written at that path.  Returns the path and the resulting file system. -/
def make_cloud_init_image (_name : String) (instance_dir : String)
    (meta_data_config user_data_config vendor_data_config network_data_config : YamlNode)
    (fs : FileSystem) : String × FileSystem :=
  let cloud_init_iso := instance_dir ++ "/cloud-init-config.iso"
  if fileExists fs cloud_init_iso then (cloud_init_iso, fs)
  else
    let iso : CloudInitIso :=
      [("meta-data", emit_cloud_config meta_data_config),
       ("vendor-data", emit_cloud_config vendor_data_config),
       ("user-data", emit_cloud_config user_data_config)] ++
      (if network_data_config.isNullNode then []
       else [("network-config", emit_cloud_config network_data_config)])
    (cloud_init_iso, fs ++ [(cloud_init_iso, iso)])

/-- Modelled from the spec: LXDVirtualMachineFactory::make_cloud_init_image
(lxd_virtual_machine_factory.cpp is absent from src/).  The in-repo test
factory_returns_empty_string_for_make_cloud_init_image
(src/tests/lxd/test_lxd_backend.cpp lines 218 to 227) records that the
LXD override returns an empty path unconditionally: this backend passes
cloud-init data inline in the creation request instead of generating an
image, diverging from the collaborator contract of spec.md section 6. -/
def lxd_make_cloud_init_image (_name : String) (_instance_dir : String)
    (_meta _user _vendor _network : YamlNode) : String :=
  ""

/-- C1: start() first reads the remote state and then behaves by case:
a Freezing (suspending) remote fails with exactly "cannot start the
instance while suspending" and issues no state-changing request, leaving
the local state unchanged; a Frozen (suspended) remote issues an
unfreeze request and logs the info-level resume message; a running
remote issues no state-changing request and the state remains running;
otherwise (stopped, or unknown as after a connection error) a start
request is issued and the local state becomes starting. -/
theorem C1_start_cases (l : VMState) (b : Bool) (msg : String) :
    start (.ok "Freezing" b) l =
      ⟨some "cannot start the instance while suspending", [], l, []⟩ ∧
    start (.ok "Frozen" b) l =
      ⟨none, ["unfreeze"], .running, [⟨.info, "Resuming from a suspended state"⟩]⟩ ∧
    start (.ok "Running" true) l = ⟨none, [], .running, []⟩ ∧
    start (.ok "Stopped" b) l = ⟨none, ["start"], .starting, []⟩ ∧
    start (.connectionError msg) l = ⟨none, ["start"], .starting, [⟨.warning, msg⟩]⟩ :=
  ⟨rfl, rfl, rfl, rfl, rfl⟩

/-- C2: after start() was issued (local state starting), when
ensure_vm_is_running observes the remote state stopped on its next poll
(and the remote, having shut down, still reads stopped on the confirming
re-poll), the call fails with the distinguished StartException whose
message is exactly "Instance shutdown during start", and the local state
becomes stopped. -/
theorem C2_shutdown_during_start (b1 b2 : Bool) (rest : List RemoteRead) :
    ensure_vm_is_running .starting (.ok "Stopped" b1 :: .ok "Stopped" b2 :: rest) =
      ⟨some (.startException "Instance shutdown during start"), .stopped⟩ :=
  rfl

/-- C3: after start() was issued (local state starting), when
ensure_vm_is_running observes the remote go Running, then Stopped, then
Running again before the timeout elapses (a reboot during start), the
call does not fail and the local state remains starting. -/
theorem C3_reboot_during_start (b : Bool) :
    ensure_vm_is_running .starting
      [.ok "Running" false, .ok "Stopped" b, .ok "Running" false] =
    ⟨none, .starting⟩ :=
  rfl

/-- C4: destruction never invokes the state-persistence monitor, and when
the remote instance is not stopped it issues exactly one stop request and
blocks on its completion, unless the maintenance/refresh marker file is
present, in which case it issues zero stop requests. -/
theorem C4_dtor_stop_policy (obs : VMState) (snap : Bool) :
    (destroy obs snap).monitorPersistCalls = 0 ∧
    (obs ≠ .stopped →
      (destroy obs true).stopRequests = 0 ∧
      (destroy obs false).stopRequests = 1 ∧
      (destroy obs false).waitedOnStop = true) := by
  constructor
  · cases obs <;> cases snap <;> rfl
  · intro h
    refine ⟨?_, ?_, ?_⟩ <;> simp [destroy, h]

/-- Witness for C4 at a concrete non-stopped observation. -/
theorem C4_dtor_stop_policy_witness :
    (destroy .running true).monitorPersistCalls = 0 ∧
    ((destroy .running true).stopRequests = 0 ∧
      (destroy .running false).stopRequests = 1 ∧
      (destroy .running false).waitedOnStop = true) :=
  ⟨(C4_dtor_stop_policy .running true).1,
   (C4_dtor_stop_policy .running true).2 (by decide)⟩

/-- C5: the operation waiter checks three failure conditions in order and
fails with the corresponding exact diagnostic for the first that holds,
logging it at error level: non-zero top-level error_code first, then a
top-level status_code denoting failure, then a nested metadata
status_code denoting failure; when none holds the wait succeeds with
nothing logged. -/
theorem C5_lxd_wait_failures (r : WaitReply) :
    (r.error_code ≠ 0 →
      lxd_wait r =
        (some ("Error waiting on operation: (" ++ toString r.error_code ++ ") " ++ r.error),
         [⟨.error, "Error waiting on operation: (" ++ toString r.error_code ++ ") " ++ r.error⟩])) ∧
    (r.error_code = 0 → 400 ≤ r.status_code →
      lxd_wait r =
        (some ("Failure waiting on operation: (" ++ toString r.status_code ++ ") " ++ r.status),
         [⟨.error, "Failure waiting on operation: (" ++ toString r.status_code ++ ") "
            ++ r.status⟩])) ∧
    (r.error_code = 0 → r.status_code < 400 → 400 ≤ r.metadata_status_code →
      lxd_wait r =
        (some ("Operation completed with error: (" ++ toString r.metadata_status_code ++ ") "
            ++ r.metadata_err),
         [⟨.error, "Operation completed with error: (" ++ toString r.metadata_status_code ++ ") "
            ++ r.metadata_err⟩])) ∧
    (r.error_code = 0 → r.status_code < 400 → r.metadata_status_code < 400 →
      lxd_wait r = (none, [])) := by
  refine ⟨?_, ?_, ?_, ?_⟩
  · intro h1
    simp [lxd_wait, h1]
  · intro h1 h2
    simp [lxd_wait, failureStatus, h1, h2]
  · intro h1 h2 h3
    simp [lxd_wait, failureStatus, h1, not_le.mpr h2, h3]
  · intro h1 h2 h3
    simp [lxd_wait, failureStatus, h1, not_le.mpr h2, not_le.mpr h3]

/-- Witness for C5 at the three wait-reply envelopes of the in-repo wait
tests, plus a successful envelope. -/
theorem C5_lxd_wait_failures_witness :
    lxd_wait ⟨400, "Failure", 0, "", 200, ""⟩ =
      (some "Error waiting on operation: (400) Failure",
       [⟨.error, "Error waiting on operation: (400) Failure"⟩]) ∧
    lxd_wait ⟨0, "", 400, "Bad status", 200, ""⟩ =
      (some "Failure waiting on operation: (400) Bad status",
       [⟨.error, "Failure waiting on operation: (400) Bad status"⟩]) ∧
    lxd_wait ⟨0, "", 0, "Success", 400, "Failed to stop instance"⟩ =
      (some "Operation completed with error: (400) Failed to stop instance",
       [⟨.error, "Operation completed with error: (400) Failed to stop instance"⟩]) ∧
    lxd_wait ⟨0, "", 200, "Success", 200, ""⟩ = (none, []) := by
  refine ⟨?_, ?_, ?_, ?_⟩
  · rw [(C5_lxd_wait_failures ⟨400, "Failure", 0, "", 200, ""⟩).1 (by decide)]
    decide
  · rw [(C5_lxd_wait_failures ⟨0, "", 400, "Bad status", 200, ""⟩).2.1 rfl (by decide)]
    decide
  · rw [(C5_lxd_wait_failures ⟨0, "", 0, "Success", 400, "Failed to stop instance"⟩).2.2.1
      rfl (by decide) (by decide)]
    decide
  · rw [(C5_lxd_wait_failures ⟨0, "", 200, "Success", 200, ""⟩).2.2.2
      rfl (by decide) (by decide)]

/-- C6: current_state maps the remote status strings Stopped, Starting,
Freezing, Frozen to stopped, starting, suspending, suspended, and Running
with network info to running, logging nothing; any unrecognized status
string maps to unknown with an error-level log identifying the raw value;
a transport connection failure maps to unknown with a warning-level log
carrying the transport error text, instead of rethrowing. -/
theorem C6_current_state_mapping (s : String) (b : Bool) (msg : String) :
    current_state (.ok "Stopped" b) = (.stopped, []) ∧
    current_state (.ok "Starting" b) = (.starting, []) ∧
    current_state (.ok "Freezing" b) = (.suspending, []) ∧
    current_state (.ok "Frozen" b) = (.suspended, []) ∧
    current_state (.ok "Running" true) = (.running, []) ∧
    (s ≠ "Stopped" → s ≠ "Starting" → s ≠ "Freezing" → s ≠ "Frozen" → s ≠ "Running" →
      current_state (.ok s b) = (.unknown, [⟨.error, "Unexpected LXD state: " ++ s⟩])) ∧
    current_state (.connectionError msg) = (.unknown, [⟨.warning, msg⟩]) := by
  refine ⟨rfl, rfl, rfl, rfl, rfl, ?_, rfl⟩
  intro h1 h2 h3 h4 h5
  simp [current_state, mapStatus, h1, h2, h3, h4, h5]

/-- Witness for C6 at the unrecognized status string Cancelling of the
status test suite. -/
theorem C6_current_state_mapping_witness :
    current_state (.ok "Cancelling" true) =
      (.unknown, [⟨.error, "Unexpected LXD state: Cancelling"⟩]) :=
  (C6_current_state_mapping "Cancelling" true "").2.2.2.2.2.1
    (by decide) (by decide) (by decide) (by decide) (by decide)

/-- An entry passes the keepBridge filter with name n exactly when it is
a well-formed bridge entry named n. -/
theorem keepBridge_eq_some_iff (e : JEntry) (n : String) :
    keepBridge e = some n ↔ isWellFormedBridge e n := by
  cases e with
  | prim v => simp [keepBridge, isWellFormedBridge]
  | obj fields =>
    constructor
    · intro h
      cases hname : getField fields "name" with
      | none => simp [keepBridge, hname] at h
      | some vn =>
        cases htype : getField fields "type" with
        | none => cases vn <;> simp [keepBridge, hname, htype] at h
        | some vt =>
          cases vn with
          | str sn =>
            cases vt with
            | str st =>
              simp only [keepBridge, hname, htype] at h
              by_cases hne : sn = ""
              · simp [hne] at h
              · by_cases hbr : st = "bridge"
                · simp [hne, hbr] at h
                  exact ⟨fields, rfl, by simpa [h] using hname, by simp [← h, hne],
                    by simpa [hbr] using htype⟩
                · simp [hne, hbr] at h
            | num m => simp [keepBridge, hname, htype] at h
            | jbool bb => simp [keepBridge, hname, htype] at h
            | null => simp [keepBridge, hname, htype] at h
            | compound => simp [keepBridge, hname, htype] at h
          | num m => cases vt <;> simp [keepBridge, hname, htype] at h
          | jbool bb => cases vt <;> simp [keepBridge, hname, htype] at h
          | null => cases vt <;> simp [keepBridge, hname, htype] at h
          | compound => cases vt <;> simp [keepBridge, hname, htype] at h
    · rintro ⟨fs, heq, hname, hne, htype⟩
      cases heq
      simp [keepBridge, hname, htype, hne]

/-- C7: for a well-formed network-listing reply, a name is reported by
list_networks exactly when some metadata entry is a well-formed bridge
entry with that name: entries missing a name or type field, with an empty
or non-string name, with a non-string type, or with a non-bridge type are
all skipped, and membership does not depend on order. -/
theorem C7_list_networks_bridges (metadata : List JEntry) (n : String) :
    n ∈ list_networks metadata ↔ ∃ e ∈ metadata, isWellFormedBridge e n := by
  simp [list_networks, List.mem_filterMap, keepBridge_eq_some_iff]

/-- C8: for the instance description of the creation test (name
pied-piper-valley, 2 CPUs, 3 MiB of memory, the given MAC, 16000000000
bytes of disk) and bridge mpbr0, the creation request body carries
limits.cpu "2", limits.memory "3145728", a root disk device of size
"16000000000", and an eth0 NIC device of nictype bridged with parent
mpbr0 and hwaddr the given MAC. -/
theorem C8_creation_request_fields :
    ("limits.cpu", "2") ∈
      (creationRequest ⟨2, 3 * 1024 * 1024, 16000000000, "pied-piper-valley",
        "00:16:3e:fe:f2:b9"⟩ "mpbr0").config ∧
    ("limits.memory", "3145728") ∈
      (creationRequest ⟨2, 3 * 1024 * 1024, 16000000000, "pied-piper-valley",
        "00:16:3e:fe:f2:b9"⟩ "mpbr0").config ∧
    ("root", rootDevice ⟨2, 3 * 1024 * 1024, 16000000000, "pied-piper-valley",
        "00:16:3e:fe:f2:b9"⟩) ∈
      (creationRequest ⟨2, 3 * 1024 * 1024, 16000000000, "pied-piper-valley",
        "00:16:3e:fe:f2:b9"⟩ "mpbr0").devices ∧
    ("size", "16000000000") ∈ rootDevice ⟨2, 3 * 1024 * 1024, 16000000000, "pied-piper-valley",
        "00:16:3e:fe:f2:b9"⟩ ∧
    ("eth0", eth0Device ⟨2, 3 * 1024 * 1024, 16000000000, "pied-piper-valley",
        "00:16:3e:fe:f2:b9"⟩ "mpbr0") ∈
      (creationRequest ⟨2, 3 * 1024 * 1024, 16000000000, "pied-piper-valley",
        "00:16:3e:fe:f2:b9"⟩ "mpbr0").devices ∧
    ("nictype", "bridged") ∈ eth0Device ⟨2, 3 * 1024 * 1024, 16000000000, "pied-piper-valley",
        "00:16:3e:fe:f2:b9"⟩ "mpbr0" ∧
    ("parent", "mpbr0") ∈ eth0Device ⟨2, 3 * 1024 * 1024, 16000000000, "pied-piper-valley",
        "00:16:3e:fe:f2:b9"⟩ "mpbr0" ∧
    ("hwaddr", "00:16:3e:fe:f2:b9") ∈ eth0Device ⟨2, 3 * 1024 * 1024, 16000000000,
        "pied-piper-valley", "00:16:3e:fe:f2:b9"⟩ "mpbr0" := by
  decide

/-- Writing an image at a path makes it exist there afterwards. -/
theorem fileExists_self_append (fs : FileSystem) (p : String) (iso : CloudInitIso) :
    fileExists (fs ++ [(p, iso)]) p = true := by
  simp [fileExists]

/-- C9: if the cloud-init image file already exists at its path in the
instance directory, make_cloud_init_image returns that path unchanged
without writing anything; consequently a second call with any (possibly
different) name and configuration documents returns the same path as the
first call and leaves the file system untouched. -/
theorem C9_cloud_init_image_idempotent (name name2 dir : String)
    (m u v nw m2 u2 v2 nw2 : YamlNode) (fs : FileSystem) :
    (fileExists fs (dir ++ "/cloud-init-config.iso") = true →
      make_cloud_init_image name dir m u v nw fs = (dir ++ "/cloud-init-config.iso", fs)) ∧
    make_cloud_init_image name2 dir m2 u2 v2 nw2
        (make_cloud_init_image name dir m u v nw fs).2 =
      ((make_cloud_init_image name dir m u v nw fs).1,
       (make_cloud_init_image name dir m u v nw fs).2) := by
  constructor
  · intro h
    simp [make_cloud_init_image, h]
  · by_cases h : fileExists fs (dir ++ "/cloud-init-config.iso") = true
    · simp [make_cloud_init_image, h]
    · simp [make_cloud_init_image, h, fileExists_self_append]

/-- Witness for C9: with the image file already present the first call
returns its path with no write, and a repeated call after a generating
first call changes nothing. -/
theorem C9_cloud_init_image_idempotent_witness :
    make_cloud_init_image "pied-piper-valley" "/data" ⟨false, "Luke: Jedi"⟩
        ⟨false, "Vader: Sith"⟩ ⟨false, "Solo: Scoundrel"⟩ ⟨true, ""⟩
        [("/data/cloud-init-config.iso", [])] =
      ("/data/cloud-init-config.iso", [("/data/cloud-init-config.iso", [])]) ∧
    make_cloud_init_image "other" "/data" ⟨true, ""⟩ ⟨true, ""⟩ ⟨true, ""⟩ ⟨true, ""⟩
        (make_cloud_init_image "pied-piper-valley" "/data" ⟨false, "Luke: Jedi"⟩
          ⟨false, "Vader: Sith"⟩ ⟨false, "Solo: Scoundrel"⟩ ⟨true, ""⟩ []).2 =
      ((make_cloud_init_image "pied-piper-valley" "/data" ⟨false, "Luke: Jedi"⟩
          ⟨false, "Vader: Sith"⟩ ⟨false, "Solo: Scoundrel"⟩ ⟨true, ""⟩ []).1,
       (make_cloud_init_image "pied-piper-valley" "/data" ⟨false, "Luke: Jedi"⟩
          ⟨false, "Vader: Sith"⟩ ⟨false, "Solo: Scoundrel"⟩ ⟨true, ""⟩ []).2) := by
  constructor
  · exact (C9_cloud_init_image_idempotent "pied-piper-valley" "other" "/data"
      ⟨false, "Luke: Jedi"⟩ ⟨false, "Vader: Sith"⟩ ⟨false, "Solo: Scoundrel"⟩ ⟨true, ""⟩
      ⟨true, ""⟩ ⟨true, ""⟩ ⟨true, ""⟩ ⟨true, ""⟩
      [("/data/cloud-init-config.iso", [])]).1 (by decide)
  · exact (C9_cloud_init_image_idempotent "pied-piper-valley" "other" "/data"
      ⟨false, "Luke: Jedi"⟩ ⟨false, "Vader: Sith"⟩ ⟨false, "Solo: Scoundrel"⟩ ⟨true, ""⟩
      ⟨true, ""⟩ ⟨true, ""⟩ ⟨true, ""⟩ ⟨true, ""⟩ []).2

/-- C10: the LXD backend factory's make_cloud_init_image returns an empty
path for every input, in contrast with the shared base implementation,
which always returns the non-empty cloud-init-config.iso path inside the
instance directory. -/
theorem C10_lxd_empty_cloud_init_image (name dir : String) (m u v nw : YamlNode)
    (fs : FileSystem) :
    lxd_make_cloud_init_image name dir m u v nw = "" ∧
    (make_cloud_init_image name dir m u v nw fs).1 ≠ "" := by
  refine ⟨rfl, ?_⟩
  have h1 : (make_cloud_init_image name dir m u v nw fs).1 =
      dir ++ "/cloud-init-config.iso" := by
    by_cases h : fileExists fs (dir ++ "/cloud-init-config.iso") = true
    · simp [make_cloud_init_image, h]
    · simp [make_cloud_init_image, h]
  rw [h1]
  intro h
  have hlen := congrArg String.length h
  have hsuf : (0 : Nat) < ("/cloud-init-config.iso" : String).length := by decide
  rw [String.length_append] at hlen
  have h0 : ("" : String).length = 0 := rfl
  rw [h0] at hlen
  omega

end Multipass
